import Mathlib

/-!
Verification of the Résumé Assessment Engine of `apps/web/src/app/resumes/page.tsx`.

The development shallowly embeds the page's pure logic:
* role classification from lowercased filename / targetRole substrings,
* writing-tip and keyword-table selection,
* the score generator (random draws passed in explicitly),
* the page state transitions `handleDeleteResume` and `handleStartAnalysis`
  (the asynchronous run is sequentialised into its phases, with the interval
  tick draws passed in explicitly),
* the progress sequence and its phase labels.
-/

/-- ASCII lowercasing of a character, the fragment of `String.prototype.toLowerCase`
relevant to the keyword sets (all keyword characters are ASCII lowercase or Korean). -/
def lowerChar (c : Char) : Char :=
  if 65 ≤ c.toNat ∧ c.toNat ≤ 90 then Char.ofNat (c.toNat + 32) else c

/-- Lowercasing of a string, modelling `s.toLowerCase()`. -/
def lowerStr (s : String) : String := ⟨s.data.map lowerChar⟩

/-- Does the list start with the given pattern of characters? -/
def charsStartWith : List Char → List Char → Bool
  | [], _ => true
  | _ :: _, [] => false
  | a :: as, b :: bs => a == b && charsStartWith as bs

/-- Does the pattern occur contiguously somewhere in the list? -/
def charsContain (sub : List Char) : List Char → Bool
  | [] => sub.isEmpty
  | c :: rest => charsStartWith sub (c :: rest) || charsContain sub rest

/-- `strIncludes s sub` models JavaScript `s.includes(sub)`. -/
def strIncludes (s sub : String) : Bool := charsContain sub.data s.data

/-- `Resume`, the `Resume` interface of the page. -/
structure Resume where
  id : String
  filename : String
  targetRole : String
  score : Option Int
  hasAnalysis : Bool
  createdAt : String
  fileSize : Option String
deriving DecidableEq, Repr

/-- The closed role-category enumeration of the spec. -/
inductive RoleCategory where
  | frontend
  | backend
  | fullstack
  | data
  | devops
  | general
deriving DecidableEq, Repr

/-- The `isFrontend` flag of `generateAnalysisResult`. -/
def isFrontend (r : Resume) : Bool :=
  strIncludes (lowerStr r.filename) ("프론트") || strIncludes (lowerStr r.filename) ("front") ||
  strIncludes (lowerStr r.targetRole) ("프론트") || strIncludes (lowerStr r.targetRole) ("front") ||
  strIncludes (lowerStr r.targetRole) ("react")

/-- The `isBackend` flag of `generateAnalysisResult`. -/
def isBackend (r : Resume) : Bool :=
  strIncludes (lowerStr r.filename) ("백엔드") || strIncludes (lowerStr r.filename) ("back") ||
  strIncludes (lowerStr r.targetRole) ("백엔드") || strIncludes (lowerStr r.targetRole) ("back") ||
  strIncludes (lowerStr r.targetRole) ("서버")

/-- The `isFullstack` flag of `generateAnalysisResult`. -/
def isFullstack (r : Resume) : Bool :=
  strIncludes (lowerStr r.filename) ("풀스택") || strIncludes (lowerStr r.filename) ("full") ||
  strIncludes (lowerStr r.targetRole) ("풀스택") || strIncludes (lowerStr r.targetRole) ("full")

/-- The `isData` flag of `generateAnalysisResult`. -/
def isData (r : Resume) : Bool :=
  strIncludes (lowerStr r.filename) ("데이터") || strIncludes (lowerStr r.filename) ("data") ||
  strIncludes (lowerStr r.targetRole) ("데이터") || strIncludes (lowerStr r.targetRole) ("data") ||
  strIncludes (lowerStr r.targetRole) ("분석")

/-- The `isDevOps` flag of `generateAnalysisResult` (it only inspects the target role). -/
def isDevOps (r : Resume) : Bool :=
  strIncludes (lowerStr r.targetRole) ("devops") || strIncludes (lowerStr r.targetRole) ("운영") ||
  strIncludes (lowerStr r.targetRole) ("인프라")

/-- Role classification: the priority chain Frontend, Backend, Fullstack, Data,
DevOps realised by the flag tests of `generateAnalysisResult` (the order in which
`getRoleKeywords` consults the flags). -/
def classifyR (r : Resume) : RoleCategory :=
  if isFrontend r then RoleCategory.frontend
  else if isBackend r then RoleCategory.backend
  else if isFullstack r then RoleCategory.fullstack
  else if isData r then RoleCategory.data
  else if isDevOps r then RoleCategory.devops
  else RoleCategory.general

/-- A writing tip: `category`, `tip`, `example` (here `exampleText`, since
`example` is a Lean keyword) and `reason`, as in `getWritingTips`. -/
structure WritingTip where
  category : String
  tip : String
  exampleText : String
  reason : String
deriving DecidableEq, Repr

/-- The Frontend branch of `getWritingTips` (the `reason` of the first tip
interpolates the résumé's `targetRole`). -/
def frontTips (role : String) : List WritingTip :=
  [ { category := "기술 스택 작성법"
    , tip := "React, TypeScript, Next.js 등 구체적인 기술명을 나열하세요"
    , exampleText := "\"웹 개발 경험\" → \"React, TypeScript, Next.js를 활용한 SPA 개발 3년 경력\""
    , reason := role ++ " 직무에서 기술 스택 명시는 필수입니다" }
  , { category := "성과 수치화"
    , tip := "성능 개선, 사용자 지표 등을 수치로 표현하세요"
    , exampleText := "\"UI 개선\" → \"Core Web Vitals LCP 2.5s→1.2s 개선, 이탈률 25% 감소\""
    , reason := "수치가 있으면 임팩트가 명확해집니다" }
  , { category := "프로젝트 규모"
    , tip := "DAU, MAU, 트래픽 등 서비스 규모를 명시하세요"
    , exampleText := "\"웹 서비스 개발\" → \"월 10만 DAU 서비스의 프론트엔드 설계 및 개발\""
    , reason := "규모를 언급하면 경험의 깊이를 보여줄 수 있습니다" } ]

/-- The Backend branch of `getWritingTips`. -/
def backTips (role : String) : List WritingTip :=
  [ { category := "기술 스택 작성법"
    , tip := "언어, 프레임워크, DB, 인프라를 구체적으로 나열하세요"
    , exampleText := "\"서버 개발\" → \"Node.js, PostgreSQL, Redis, Docker 기반 백엔드 시스템 구축\""
    , reason := role ++ " 직무에서 기술 스택 명시는 필수입니다" }
  , { category := "성능 개선 성과"
    , tip := "API 응답시간, 처리량 등 성능 지표를 수치로 표현하세요"
    , exampleText := "\"API 개발\" → \"API 응답시간 200ms→50ms 개선 (75% 향상)\""
    , reason := "백엔드는 성능 수치가 핵심 역량 지표입니다" }
  , { category := "트래픽/데이터 규모"
    , tip := "처리한 데이터나 트래픽 규모를 언급하세요"
    , exampleText := "\"DB 관리\" → \"일 1억건 트래픽을 처리하는 DB 쿼리 최적화\""
    , reason := "규모를 언급하면 대용량 시스템 경험을 증명할 수 있습니다" } ]

/-- The Fullstack branch of `getWritingTips` (no interpolation). -/
def fullTips : List WritingTip :=
  [ { category := "풀스택 역량 표현"
    , tip := "프론트엔드, 백엔드 기술을 모두 명시하세요"
    , exampleText := "\"웹 개발\" → \"React + Node.js + PostgreSQL 기반 풀스택 서비스 개발\""
    , reason := "풀스택은 양쪽 기술 스택을 모두 보여줘야 합니다" }
  , { category := "종합적 성과"
    , tip := "서비스 전체를 담당한 경험을 강조하세요"
    , exampleText := "\"서비스 개발\" → \"0→1 서비스 구축부터 MAU 5만 달성까지 전 과정 주도\""
    , reason := "풀스택의 가치는 전체를 볼 수 있다는 점입니다" }
  , { category := "1인 개발 역량"
    , tip := "독립적으로 완수한 프로젝트를 강조하세요"
    , exampleText := "\"개발 담당\" → \"FE/BE/인프라를 아우르는 1인 개발로 MVP 2주 내 출시\""
    , reason := "자기주도적 개발 능력을 보여줄 수 있습니다" } ]

/-- The Data branch of `getWritingTips` (no interpolation). -/
def dataTips : List WritingTip :=
  [ { category := "분석 도구 명시"
    , tip := "사용한 분석 도구와 언어를 구체적으로 나열하세요"
    , exampleText := "\"데이터 분석\" → \"Python, SQL, Pandas, Scikit-learn으로 ML 모델 개발\""
    , reason := "데이터 직무는 도구 숙련도가 중요합니다" }
  , { category := "비즈니스 임팩트"
    , tip := "분석 결과가 비즈니스에 미친 영향을 수치로 표현하세요"
    , exampleText := "\"분석 업무\" → \"이탈 예측 모델로 마케팅 비용 30% 절감에 기여\""
    , reason := "분석의 가치는 비즈니스 성과로 증명됩니다" }
  , { category := "데이터 규모"
    , tip := "처리한 데이터의 규모를 언급하세요"
    , exampleText := "\"ETL 구축\" → \"일 500GB 데이터 처리하는 파이프라인 설계 및 자동화\""
    , reason := "대용량 데이터 처리 경험을 보여줄 수 있습니다" } ]

/-- The fallback (else) branch of `getWritingTips` (the second tip interpolates
the résumé's `targetRole`). -/
def generalTips (role : String) : List WritingTip :=
  [ { category := "성과 수치화"
    , tip := "모든 성과에 수치를 붙여보세요"
    , exampleText := "\"프로젝트 수행\" → \"사용자 수 50% 증가에 기여한 핵심 기능 개발 리드\""
    , reason := "수치가 없는 성과는 임팩트가 약해 보입니다" }
  , { category := "기술 스택 구체화"
    , tip := role ++ "에 필요한 핵심 기술을 구체적으로 나열하세요"
    , exampleText := "\"다양한 기술 활용\" → \"Python, SQL, Excel VBA 등 업무 자동화 도구 활용\""
    , reason := "구체적인 기술명이 키워드 매칭에 유리합니다" }
  , { category := "경험 구체화"
    , tip := "추상적인 표현 대신 구체적인 경험을 작성하세요"
    , exampleText := "\"열정적으로 일함\" → \"3년간 스타트업에서 0→1 제품 개발 3회 완수\""
    , reason := "구체적인 경험이 신뢰도를 높입니다" } ]

/-- `getWritingTips` of `generateAnalysisResult`: the Frontend, Backend,
Fullstack, Data branches, and otherwise the fallback tips — note there is no
DevOps branch here. -/
def getWritingTips (r : Resume) : List WritingTip :=
  if isFrontend r then frontTips r.targetRole
  else if isBackend r then backTips r.targetRole
  else if isFullstack r then fullTips
  else if isData r then dataTips
  else generalTips r.targetRole

/-- The tip table keyed by category: how `getWritingTips` factors through the
classification (DevOps shares the fallback tips with General). -/
def tipsOfCat : RoleCategory → String → List WritingTip
  | RoleCategory.frontend, role => frontTips role
  | RoleCategory.backend, role => backTips role
  | RoleCategory.fullstack, _ => fullTips
  | RoleCategory.data, _ => dataTips
  | RoleCategory.devops, role => generalTips role
  | RoleCategory.general, role => generalTips role

/-- `getRoleKeywords` of `generateAnalysisResult`. -/
def getRoleKeywords (r : Resume) : List String :=
  if isFrontend r then ["React", "TypeScript", "Next.js", "CSS", "JavaScript", "HTML"]
  else if isBackend r then ["Node.js", "Python", "SQL", "API", "Docker", "AWS"]
  else if isFullstack r then ["React", "Node.js", "TypeScript", "PostgreSQL", "Docker"]
  else if isData r then ["Python", "SQL", "Pandas", "ML", "데이터분석", "Tableau"]
  else if isDevOps r then ["Docker", "Kubernetes", "AWS", "CI/CD", "Terraform", "Linux"]
  else ["협업", "문제해결", "커뮤니케이션", "기획", "분석"]

/-- The keyword table keyed by category: how `getRoleKeywords` factors through
the classification. -/
def keywordsOfCat : RoleCategory → List String
  | RoleCategory.frontend => ["React", "TypeScript", "Next.js", "CSS", "JavaScript", "HTML"]
  | RoleCategory.backend => ["Node.js", "Python", "SQL", "API", "Docker", "AWS"]
  | RoleCategory.fullstack => ["React", "Node.js", "TypeScript", "PostgreSQL", "Docker"]
  | RoleCategory.data => ["Python", "SQL", "Pandas", "ML", "데이터분석", "Tableau"]
  | RoleCategory.devops => ["Docker", "Kubernetes", "AWS", "CI/CD", "Terraform", "Linux"]
  | RoleCategory.general => ["협업", "문제해결", "커뮤니케이션", "기획", "분석"]

/-- `Array.prototype.join(', ')` on a list of strings. -/
def joinComma : List String → String
  | [] => ""
  | [x] => x
  | x :: y :: rest => x ++ ", " ++ joinComma (y :: rest)

/-- The `keyword_match` feedback template, abstracted over the keywords that are
cited as present and as recommended to add. -/
def mkKeywordFB (role : String) (present recommended : List String) : String :=
  role ++ " 직무와 관련된 핵심 키워드(" ++ joinComma present ++
  ")가 포함되어 있습니다. " ++ joinComma recommended ++ " 키워드 추가를 권장합니다."

/-- The `keyword_match` feedback string of `generateAnalysisResult`:
`keywords.slice(0, 3)` cited as present, `keywords.slice(3, 5)` as recommended. -/
def keywordFeedback (r : Resume) : String :=
  mkKeywordFB r.targetRole ((getRoleKeywords r).take 3) (((getRoleKeywords r).drop 3).take 2)

/-- The random draws a run of `generateAnalysisResult` consumes:
`b` is `Math.floor(Math.random() * 20)` and `j1`–`j5` the per-section
`Math.floor(Math.random() * jitter)` draws, in source order
(ats_friendly, impact_metrics, keyword_match, readability, format). -/
structure Draws where
  b : Nat
  j1 : Nat
  j2 : Nat
  j3 : Nat
  j4 : Nat
  j5 : Nat
deriving DecidableEq, Repr

/-- A section of the report: score, status and feedback. -/
structure SectionResult where
  score : Int
  status : String
  feedback : String
deriving DecidableEq, Repr

/-- The assessment report returned by `generateAnalysisResult` (the five fixed
sections are record fields). -/
structure AnalysisResult where
  overall_score : Int
  ats_friendly : SectionResult
  impact_metrics : SectionResult
  keyword_match : SectionResult
  readability : SectionResult
  format : SectionResult
  writingTips : List WritingTip
deriving DecidableEq, Repr

/-- `generateAnalysisResult`, with the random draws made explicit:
`baseScore = 62 + d.b`, every section score is `min 100 (baseScore + offset + jitter)`,
the `impact_metrics` and `readability` statuses test `baseScore` (not the
section's own score) against 70 and 65 strictly, and the other three statuses
are the literal string `"good"`. -/
def generateAnalysisResult (r : Resume) (d : Draws) : AnalysisResult :=
  let baseScore : Int := 62 + (d.b : Int)
  { overall_score := baseScore
  , ats_friendly :=
      { score := min 100 (baseScore + 8 + (d.j1 : Int))
      , status := "good"
      , feedback := "PDF 형식의 이력서로 ATS 시스템에서 파싱이 잘 됩니다. 표준화된 섹션 구분을 사용하세요." }
  , impact_metrics :=
      { score := min 100 (baseScore - 5 + (d.j2 : Int))
      , status := if baseScore > 70 then "good" else "needs_improvement"
      , feedback := if baseScore > 70
          then "성과가 수치와 함께 잘 표현되어 있습니다. 더 구체적인 비즈니스 임팩트를 추가하면 좋습니다."
          else "성과를 수치로 표현하세요. \"매출 증가\"보다 \"매출 30% 증가\"가 훨씬 임팩트 있습니다." }
  , keyword_match :=
      { score := min 100 (baseScore + 5 + (d.j3 : Int))
      , status := "good"
      , feedback := keywordFeedback r }
  , readability :=
      { score := min 100 (baseScore + (d.j4 : Int))
      , status := if baseScore > 65 then "good" else "needs_improvement"
      , feedback := if baseScore > 65
          then "문장이 간결하고 읽기 쉽게 작성되어 있습니다."
          else "문장을 더 간결하게 작성하세요. 한 문장에 핵심 정보 하나만 담는 것이 좋습니다." }
  , format :=
      { score := min 100 (baseScore + 10 + (d.j5 : Int))
      , status := "good"
      , feedback := "레이아웃이 깔끔하게 정돈되어 있습니다. 글머리 기호를 활용하면 가독성이 더 높아집니다." }
  , writingTips := getWritingTips r }

/-- The React state of `ResumesPage` relevant to the assessment engine:
the résumé list, the selection, the transient run flags and the stored
reports map (`analysisResults : Record<string, ...>` modelled as a lookup
function). -/
structure PageState where
  resumes : List Resume
  selectedResume : Option String
  isAnalyzing : Bool
  analysisProgress : Nat
  analysisResults : String → Option AnalysisResult

/-- `handleDeleteResume`: when the confirm dialog is accepted, filter the
résumé out of the list and, if it was selected, move the selection to the
first remaining résumé; `analysisResults` is not touched. -/
def handleDeleteResume (st : PageState) (id : String) (confirmed : Bool) : PageState :=
  if confirmed then
    { st with
      resumes := st.resumes.filter (fun r => r.id != id)
    , selectedResume :=
        if st.selectedResume == some id
        then (st.resumes.find? (fun r => r.id != id)).map Resume.id
        else st.selectedResume }
  else st

/-- One `setInterval` tick of `handleStartAnalysis`: hold once the previous
value reached 95, otherwise add `Math.floor(Math.random() * 8) + 3`; `d` is
the `Math.floor(Math.random() * 8)` draw. -/
def tick (p : Nat) (d : Nat) : Nat :=
  if p ≥ 95 then p else p + d + 3

/-- The synchronous entry of `handleStartAnalysis`: `setIsAnalyzing(true)`,
`setAnalysisProgress(0)`. -/
def startPhase (st : PageState) : PageState :=
  { st with isAnalyzing := true, analysisProgress := 0 }

/-- The state after entry and the interval ticks that fired before the
simulated delay resolved (`td` lists the tick draws). -/
def runningTickState (st : PageState) (td : List Nat) : PageState :=
  { startPhase st with analysisProgress := List.foldl tick (startPhase st).analysisProgress td }

/-- The state at the résumé lookup: `clearInterval` then `setAnalysisProgress(100)`
precede the `resumes.find` call. -/
def preLookupState (st : PageState) (td : List Nat) : PageState :=
  { runningTickState st td with analysisProgress := 100 }

/-- The error the try-block of `handleStartAnalysis` can throw
(`throw new Error('Resume not found')`). -/
inductive AnalysisError where
  | resumeNotFound
deriving DecidableEq, Repr

/-- The try-block of `handleStartAnalysis`, sequentialised: enter the run,
tick, set progress to 100, look the résumé up, and on success store the
generated report under the id and mark the résumé analysed with the overall
score (the source computes `result` once; here the pure
`generateAnalysisResult target d` call is repeated, which is the same value). -/
def analysisAttempt (st : PageState) (resumeId : String) (td : List Nat) (d : Draws) :
    Except AnalysisError PageState :=
  match (preLookupState st td).resumes.find? (fun r => r.id == resumeId) with
  | none => Except.error AnalysisError.resumeNotFound
  | some target =>
    Except.ok
      { preLookupState st td with
        analysisResults := fun k =>
          if k == resumeId then some (generateAnalysisResult target d)
          else (preLookupState st td).analysisResults k
      , resumes := (preLookupState st td).resumes.map (fun r =>
          if r.id == resumeId
          then { r with hasAnalysis := true,
                        score := some (generateAnalysisResult target d).overall_score }
          else r) }

/-- `handleStartAnalysis` as a whole: the catch block swallows the error
(logging only) and the finally block resets `isAnalyzing` and the progress. -/
def handleStartAnalysis (st : PageState) (resumeId : String) (td : List Nat) (d : Draws) :
    PageState :=
  match analysisAttempt st resumeId td d with
  | Except.ok st2 => { st2 with isAnalyzing := false, analysisProgress := 0 }
  | Except.error _ => { st with isAnalyzing := false, analysisProgress := 0 }

/-- Is the attempt's outcome a success? -/
def isOkB {ε α : Type} : Except ε α → Bool
  | Except.ok _ => true
  | Except.error _ => false

/-- Is the attempt's outcome the resume-not-found error? -/
def isNotFoundErr {α : Type} : Except AnalysisError α → Bool
  | Except.error AnalysisError.resumeNotFound => true
  | Except.ok _ => false

/-- The successive progress values produced by the ticks, starting from `p`. -/
def tickValues (p : Nat) : List Nat → List Nat
  | [] => []
  | d :: ds => tick p d :: tickValues (tick p d) ds

/-- The progress values a run emits while it is running: the initial 0, the
ticked values, and the final `setAnalysisProgress(100)` on completion. -/
def progressSeq (ds : List Nat) : List Nat :=
  0 :: (tickValues 0 ds ++ [100])

/-- The number of interval ticks that can fire before completion: the 400 ms
interval expires at 400, 800, …, 3200 ms — eight times — before the 3500 ms
delay resolves and its continuation clears the interval, so a run's tick-draw
list has length at most 8 (and progress stays at most 8 × 10 = 80 before the
final 100; the ≥ 95 hold in `tick` is never reached). -/
def maxTicks : Nat := 8

/-- The phase label rendered for a progress value (the bracket conditions of
the `analysisStep` paragraph of `ResumesPage`). -/
def phaseLabel (p : Nat) : String :=
  if p < 20 then "📄 이력서 파싱 중..."
  else if p < 40 then "🔍 ATS 호환성 검사 중..."
  else if p < 60 then "📊 임팩트 분석 중..."
  else if p < 80 then "🔑 키워드 매칭 분석 중..."
  else "✨ 개선 제안 생성 중..."

/-! ### Concrete fixtures used by witnesses and counterexamples -/

/-- A résumé whose metadata matches no keyword set (General category). -/
def rGen : Resume := ⟨"1", "a.pdf", "pm", none, false, "2024-01-10", none⟩

/-- Draws with base draw 9 (base score 71) and all jitters 0. -/
def d71 : Draws := ⟨9, 0, 0, 0, 0, 0⟩

/-- Draws with base draw 0 (base score 62) and readability jitter 3. -/
def d62 : Draws := ⟨0, 0, 0, 0, 3, 0⟩

/-- All-zero draws. -/
def dZero : Draws := ⟨0, 0, 0, 0, 0, 0⟩

/-- A résumé whose filename holds both the Frontend and the Backend keyword. -/
def rMixed : Resume := ⟨"3", "이력서_프론트_백엔드.pdf", "개발자", none, false, "", none⟩

/-- Upper-case metadata. -/
def rUpper : Resume := ⟨"u", "X.PDF", "REACT", none, false, "", none⟩

/-- The same metadata lower-cased. -/
def rLower : Resume := ⟨"u", "x.pdf", "react", none, false, "", none⟩

/-- A résumé matching only the Backend keyword set. -/
def rBack : Resume := ⟨"b", "b.pdf", "백엔드 개발자", none, false, "", none⟩

/-- Frontend via the target role keyword "react". -/
def rA : Resume := ⟨"a", "x.pdf", "react", none, false, "", none⟩

/-- Frontend via the target role keyword "front" (same category as `rA`,
different target-role string). -/
def rB : Resume := ⟨"a", "x.pdf", "front", none, false, "", none⟩

/-- Frontend via the filename (same category and same target role as `rA`). -/
def rC : Resume := ⟨"c", "이력서_프론트.pdf", "react", none, false, "", none⟩

/-- A résumé classified DevOps (no higher-priority keyword matches). -/
def rDev : Resume := ⟨"9", "resume.pdf", "devops engineer", none, false, "", none⟩

/-- The first mock résumé row of the page. -/
def resume1 : Resume :=
  ⟨"1", "이력서_프론트엔드_2024.pdf", "Frontend Engineer", some 72, true, "2024-01-10", some ("245 KB")⟩

/-- The second mock résumé row of the page. -/
def resume2 : Resume :=
  ⟨"2", "이력서_풀스택_2024.pdf", "Full Stack Developer", none, false, "2024-01-05", some ("312 KB")⟩

/-- A stored report for `resume1`. -/
def resC : AnalysisResult := generateAnalysisResult resume1 dZero

/-- A state in which a run is `Running` (progress 50) for résumé "2". -/
def stRunning : PageState :=
  { resumes := [resume2], selectedResume := some ("2"), isAnalyzing := true
  , analysisProgress := 50, analysisResults := fun _ => none }

/-- An idle state holding only résumé "2". -/
def stIdle : PageState :=
  { resumes := [resume2], selectedResume := some ("2"), isAnalyzing := false
  , analysisProgress := 0, analysisResults := fun _ => none }

/-- An idle state in which résumé "1" has a stored report. -/
def stWith : PageState :=
  { resumes := [resume1, resume2], selectedResume := some ("1"), isAnalyzing := false
  , analysisProgress := 0
  , analysisResults := fun k => if k == "1" then some resC else none }

/-- The score bounds of claim C3: the overall score equals the base draw and
lies in [62, 81], and all five section scores lie in [0, 100]. -/
def scoreBoundsOk (r : Resume) (d : Draws) : Prop :=
  (generateAnalysisResult r d).overall_score = 62 + (d.b : Int)
  ∧ 62 ≤ (generateAnalysisResult r d).overall_score
  ∧ (generateAnalysisResult r d).overall_score ≤ 81
  ∧ (0 ≤ (generateAnalysisResult r d).ats_friendly.score
      ∧ (generateAnalysisResult r d).ats_friendly.score ≤ 100)
  ∧ (0 ≤ (generateAnalysisResult r d).impact_metrics.score
      ∧ (generateAnalysisResult r d).impact_metrics.score ≤ 100)
  ∧ (0 ≤ (generateAnalysisResult r d).keyword_match.score
      ∧ (generateAnalysisResult r d).keyword_match.score ≤ 100)
  ∧ (0 ≤ (generateAnalysisResult r d).readability.score
      ∧ (generateAnalysisResult r d).readability.score ≤ 100)
  ∧ (0 ≤ (generateAnalysisResult r d).format.score
      ∧ (generateAnalysisResult r d).format.score ≤ 100)

/-- The progress contract of claim C7: the emitted sequence starts at 0, is
monotonically (strictly) increasing from element to element, every emitted
percent lies in [0, 100], and the final emission on completion is exactly
100. -/
def progressClaimOk (ds : List Nat) : Prop :=
  (progressSeq ds).head? = some 0
  ∧ List.Chain' (fun a b => a < b) (progressSeq ds)
  ∧ (∀ p ∈ progressSeq ds, p ≤ 100)
  ∧ (progressSeq ds).getLast? = some 100

/-! ### Factoring lemmas -/

/-- `getWritingTips` factors through the role category and the target role. -/
theorem getWritingTips_eq (r : Resume) :
    getWritingTips r = tipsOfCat (classifyR r) r.targetRole := by
  unfold getWritingTips classifyR
  cases h1 : isFrontend r <;> cases h2 : isBackend r <;> cases h3 : isFullstack r <;>
    cases h4 : isData r <;> cases h5 : isDevOps r <;> simp [tipsOfCat]

/-- `getRoleKeywords` factors through the role category. -/
theorem getRoleKeywords_eq (r : Resume) :
    getRoleKeywords r = keywordsOfCat (classifyR r) := by
  unfold getRoleKeywords classifyR
  cases h1 : isFrontend r <;> cases h2 : isBackend r <;> cases h3 : isFullstack r <;>
    cases h4 : isData r <;> cases h5 : isDevOps r <;> simp [keywordsOfCat]

/-- Each ticked progress value is at most the start plus 10 per tick, since a
tick either holds or adds `d + 3 ≤ 10`. -/
theorem tickValues_add_le (ds : List Nat) (p : Nat) (hd : ∀ d ∈ ds, d ≤ 7) :
    ∀ q ∈ tickValues p ds, q ≤ p + 10 * ds.length := by
  induction ds generalizing p with
  | nil => intro q hq; simp [tickValues] at hq
  | cons d ds ih =>
    intro q hq
    have hdd : d ≤ 7 := hd d (by simp)
    have hstep : tick p d ≤ p + 10 := by
      unfold tick; split <;> omega
    simp only [tickValues, List.mem_cons] at hq
    simp only [List.length_cons]
    rcases hq with rfl | hq
    · omega
    · have := ih (tick p d) (fun x hx => hd x (by simp [hx])) q hq
      omega

/-- When the run stays below the 95 hold throughout (start plus 10 per tick at
most 94), the ticked values followed by the final 100 form a strictly
increasing chain: every tick adds at least 3, and the last ticked value is
below 100. -/
theorem tickValues_chain_concat (ds : List Nat) (p : Nat) (hd : ∀ d ∈ ds, d ≤ 7)
    (hp : p + 10 * ds.length ≤ 94) :
    List.Chain' (fun a b => a < b) ((p :: tickValues p ds) ++ [100]) := by
  induction ds generalizing p with
  | nil =>
    simp only [List.length_nil] at hp
    simp only [tickValues, List.cons_append, List.nil_append]
    simp [List.chain'_cons, List.chain'_singleton]
    omega
  | cons d ds ih =>
    simp only [List.length_cons] at hp
    have hdd : d ≤ 7 := hd d (by simp)
    have htick : tick p d = p + d + 3 := by
      unfold tick; split <;> omega
    simp only [tickValues, List.cons_append]
    rw [List.chain'_cons]
    refine ⟨by rw [htick]; omega, ?_⟩
    have hnext : tick p d + 10 * ds.length ≤ 94 := by rw [htick]; omega
    have hchain := ih (tick p d) (fun x hx => hd x (by simp [hx])) hnext
    simpa only [List.cons_append] using hchain

/-! ### Claim theorems -/

/-- C1 (amended): for every run, the `ats_friendly`, `format` and
`keyword_match` statuses are `"good"` unconditionally, and the
`impact_metrics` (resp. `readability`) status is `"good"` iff the shared base
score `62 + b` exceeds 70 (resp. 65) strictly — the thresholds are compared
against the base draw, not against the dimension's own score. -/
theorem C1_section_status (r : Resume) (d : Draws) :
    (generateAnalysisResult r d).ats_friendly.status = "good"
    ∧ (generateAnalysisResult r d).format.status = "good"
    ∧ (generateAnalysisResult r d).keyword_match.status = "good"
    ∧ ((generateAnalysisResult r d).impact_metrics.status = "good" ↔ 70 < 62 + (d.b : Int))
    ∧ ((generateAnalysisResult r d).readability.status = "good" ↔ 65 < 62 + (d.b : Int)) := by
  unfold generateAnalysisResult
  refine ⟨rfl, rfl, rfl, ?_, ?_⟩ <;> · simp only []; split_ifs with h <;> simp [h]

/-- C1 counterexample: with base draw 9 (base score 71) and zero impact jitter
the `impact_metrics` status is `"good"` although its own score is 66 < 70; and
with base draw 0 and readability jitter 3 the `readability` score is 65 ≥ 65
yet its status is not `"good"`. The claim's "status is good iff the section's
own score meets the threshold" is therefore false in both directions. -/
theorem C1_counterexample :
    ((generateAnalysisResult rGen d71).impact_metrics.status = "good"
      ∧ (generateAnalysisResult rGen d71).impact_metrics.score < 70)
    ∧ ((generateAnalysisResult rGen d62).readability.status ≠ "good"
      ∧ 65 ≤ (generateAnalysisResult rGen d62).readability.score) := by decide

/-- C2: classification is insensitive to letter case (inputs equal after
lowercasing classify identically), follows the fixed priority order Frontend,
Backend, Fullstack, Data, DevOps with General as the fallback when no keyword
set matches, and metadata containing both "프론트" and "백엔드" resolves to
Frontend. Determinism and membership in the six-value enumeration are
inherent in `classifyR` being a total function into `RoleCategory`. -/
theorem C2_classifier :
    (∀ r r' : Resume, lowerStr r.filename = lowerStr r'.filename →
        lowerStr r.targetRole = lowerStr r'.targetRole → classifyR r = classifyR r')
    ∧ (∀ r : Resume, isFrontend r = true → classifyR r = RoleCategory.frontend)
    ∧ (∀ r : Resume, isFrontend r = false → isBackend r = true →
        classifyR r = RoleCategory.backend)
    ∧ (∀ r : Resume, isFrontend r = false → isBackend r = false → isFullstack r = true →
        classifyR r = RoleCategory.fullstack)
    ∧ (∀ r : Resume, isFrontend r = false → isBackend r = false → isFullstack r = false →
        isData r = true → classifyR r = RoleCategory.data)
    ∧ (∀ r : Resume, isFrontend r = false → isBackend r = false → isFullstack r = false →
        isData r = false → isDevOps r = true → classifyR r = RoleCategory.devops)
    ∧ (∀ r : Resume, isFrontend r = false → isBackend r = false → isFullstack r = false →
        isData r = false → isDevOps r = false → classifyR r = RoleCategory.general)
    ∧ classifyR rMixed = RoleCategory.frontend := by
  refine ⟨?_, ?_, ?_, ?_, ?_, ?_, ?_, by decide⟩
  · intro r r' h1 h2
    unfold classifyR isFrontend isBackend isFullstack isData isDevOps
    rw [h1, h2]
  · intro r h
    simp [classifyR, h]
  · intro r h1 h2
    simp [classifyR, h1, h2]
  · intro r h1 h2 h3
    simp [classifyR, h1, h2, h3]
  · intro r h1 h2 h3 h4
    simp [classifyR, h1, h2, h3, h4]
  · intro r h1 h2 h3 h4 h5
    simp [classifyR, h1, h2, h3, h4, h5]
  · intro r h1 h2 h3 h4 h5
    simp [classifyR, h1, h2, h3, h4, h5]

/-- C2 witness: case-insensitivity at upper/lower-case metadata, and the
Backend priority clause at a concrete Backend résumé. -/
theorem C2_classifier_witness :
    classifyR rUpper = classifyR rLower ∧ classifyR rBack = RoleCategory.backend :=
  ⟨C2_classifier.1 rUpper rLower (by decide) (by decide),
   C2_classifier.2.2.1 rBack (by decide) (by decide)⟩

/-- C3: for bounded draws (`b < 20` and each jitter below its bound), the
overall score equals the base draw `62 + b`, lies in [62, 81], and every
section score lies in [0, 100]. -/
theorem C3_score_bounds (r : Resume) (d : Draws)
    (hb : d.b < 20) (h1 : d.j1 < 10) (h2 : d.j2 < 15) (h3 : d.j3 < 12)
    (h4 : d.j4 < 15) (h5 : d.j5 < 8) : scoreBoundsOk r d := by
  unfold scoreBoundsOk
  refine ⟨rfl, ?_, ?_, ⟨?_, ?_⟩, ⟨?_, ?_⟩, ⟨?_, ?_⟩, ⟨?_, ?_⟩, ⟨?_, ?_⟩⟩
  · show (62 : Int) ≤ 62 + (d.b : Int)
    omega
  · show 62 + (d.b : Int) ≤ 81
    omega
  · show (0 : Int) ≤ min 100 (62 + (d.b : Int) + 8 + (d.j1 : Int))
    simp only [min_def]; split_ifs <;> omega
  · show min (100 : Int) (62 + (d.b : Int) + 8 + (d.j1 : Int)) ≤ 100
    simp only [min_def]; split_ifs <;> omega
  · show (0 : Int) ≤ min 100 (62 + (d.b : Int) - 5 + (d.j2 : Int))
    simp only [min_def]; split_ifs <;> omega
  · show min (100 : Int) (62 + (d.b : Int) - 5 + (d.j2 : Int)) ≤ 100
    simp only [min_def]; split_ifs <;> omega
  · show (0 : Int) ≤ min 100 (62 + (d.b : Int) + 5 + (d.j3 : Int))
    simp only [min_def]; split_ifs <;> omega
  · show min (100 : Int) (62 + (d.b : Int) + 5 + (d.j3 : Int)) ≤ 100
    simp only [min_def]; split_ifs <;> omega
  · show (0 : Int) ≤ min 100 (62 + (d.b : Int) + (d.j4 : Int))
    simp only [min_def]; split_ifs <;> omega
  · show min (100 : Int) (62 + (d.b : Int) + (d.j4 : Int)) ≤ 100
    simp only [min_def]; split_ifs <;> omega
  · show (0 : Int) ≤ min 100 (62 + (d.b : Int) + 10 + (d.j5 : Int))
    simp only [min_def]; split_ifs <;> omega
  · show min (100 : Int) (62 + (d.b : Int) + 10 + (d.j5 : Int)) ≤ 100
    simp only [min_def]; split_ifs <;> omega

/-- C3 witness: the bounds at the all-zero draw on a concrete résumé. -/
theorem C3_score_bounds_witness : scoreBoundsOk rGen dZero :=
  C3_score_bounds rGen dZero (by decide) (by decide) (by decide) (by decide) (by decide)
    (by decide)

/-- C4 (amended): `writingTips` always has exactly 3 tips, and its content is
determined by the pair (role category, target-role string) — two runs with the
same category and the same `targetRole` produce identical tips, independently
of the random score draws (which `getWritingTips` never reads). It is not
determined by the category alone, because the Frontend, Backend and fallback
tip templates interpolate `targetRole`. -/
theorem C4_writing_tips :
    (∀ r : Resume, (getWritingTips r).length = 3)
    ∧ (∀ r r' : Resume, classifyR r = classifyR r' → r.targetRole = r'.targetRole →
        getWritingTips r = getWritingTips r') := by
  constructor
  · intro r
    rw [getWritingTips_eq]
    cases classifyR r <;> rfl
  · intro r r' hc ht
    rw [getWritingTips_eq, getWritingTips_eq, hc, ht]

/-- C4 counterexample: `rA` (targetRole "react") and `rB` (targetRole "front")
both classify as Frontend, yet their writing tips differ — the first tip's
`reason` interpolates the target role — refuting "content is entirely
determined by the RoleCategory alone". -/
theorem C4_counterexample :
    classifyR rA = classifyR rB ∧ getWritingTips rA ≠ getWritingTips rB := by decide

/-- C4 witness: two résumés of the same category with the same target role get
identical tips. -/
theorem C4_writing_tips_witness :
    classifyR rA = classifyR rC ∧ getWritingTips rA = getWritingTips rC :=
  ⟨by decide, C4_writing_tips.2 rA rC (by decide) rfl⟩

/-- C9: the keywords come from the category's fixed list, the cited "present"
keywords are exactly the first 3 of that list and the "recommended to add"
keywords are exactly the next 2 (every category list has at least 5 entries,
so both slices are full), and the `keyword_match` feedback is the fixed
template instantiated with exactly those two slices. -/
theorem C9_keyword_feedback (r : Resume) :
    getRoleKeywords r = keywordsOfCat (classifyR r)
    ∧ ((keywordsOfCat (classifyR r)).take 3).length = 3
    ∧ (((keywordsOfCat (classifyR r)).drop 3).take 2).length = 2
    ∧ keywordFeedback r =
        mkKeywordFB r.targetRole ((keywordsOfCat (classifyR r)).take 3)
          (((keywordsOfCat (classifyR r)).drop 3).take 2) := by
  refine ⟨getRoleKeywords_eq r, ?_, ?_, ?_⟩
  · cases classifyR r <;> rfl
  · cases classifyR r <;> rfl
  · unfold keywordFeedback
    rw [getRoleKeywords_eq]

/-- C10: a résumé classified DevOps receives exactly the fallback (General)
writing tips — the tip table has no DevOps branch — while its keyword list is
the DevOps-specific Docker, Kubernetes, AWS, CI/CD, Terraform, Linux. -/
theorem C10_devops_fallback (r : Resume) (h : classifyR r = RoleCategory.devops) :
    getWritingTips r = generalTips r.targetRole
    ∧ getRoleKeywords r = ["Docker", "Kubernetes", "AWS", "CI/CD", "Terraform", "Linux"] := by
  rw [getWritingTips_eq, getRoleKeywords_eq, h]
  exact ⟨rfl, rfl⟩

/-- C10 witness: the DevOps résumé `rDev` (targetRole "devops engineer"). -/
theorem C10_devops_fallback_witness :
    getWritingTips rDev = generalTips rDev.targetRole
    ∧ getRoleKeywords rDev = ["Docker", "Kubernetes", "AWS", "CI/CD", "Terraform", "Linux"] :=
  C10_devops_fallback rDev (by decide)

/-- C5 counterexample: in `stRunning` a run for résumé "2" is `Running`
(`isAnalyzing = true`, progress 50); a second `handleStartAnalysis` call for
the same résumé does not fail — its attempt succeeds — and it alters state:
the entry phase resets the shared progress from 50 to 0. No
`AnalysisAlreadyInProgress` outcome exists anywhere in the handler. -/
theorem C5_counterexample :
    stRunning.isAnalyzing = true
    ∧ isOkB (analysisAttempt stRunning "2" [] dZero) = true
    ∧ (startPhase stRunning).analysisProgress ≠ stRunning.analysisProgress := by decide

/-- C5 (amended): `handleStartAnalysis` has no concurrency guard: called while
a run is already `Running`, the attempt for any existing résumé still succeeds
(it is never rejected with an in-progress error), and the entry phase
unconditionally restarts the shared run state (`isAnalyzing := true`,
progress reset to 0). The UI merely hides the start button while
`isAnalyzing` is true. -/
theorem C5_no_guard (st : PageState) (id : String) (td : List Nat) (d : Draws)
    (_hrun : st.isAnalyzing = true)
    (hfind : (st.resumes.find? (fun r => r.id == id)).isSome = true) :
    isOkB (analysisAttempt st id td d) = true
    ∧ (startPhase st).isAnalyzing = true
    ∧ (startPhase st).analysisProgress = 0 := by
  refine ⟨?_, rfl, rfl⟩
  unfold analysisAttempt
  have hres : (preLookupState st td).resumes = st.resumes := rfl
  rw [hres]
  cases hsome : st.resumes.find? (fun r => r.id == id) with
  | none =>
    rw [hsome] at hfind
    simp at hfind
  | some target => rfl

/-- C5 witness: the amended statement at the concrete `Running` state. -/
theorem C5_no_guard_witness :
    isOkB (analysisAttempt stRunning "2" [] dZero) = true
    ∧ (startPhase stRunning).isAnalyzing = true
    ∧ (startPhase stRunning).analysisProgress = 0 :=
  C5_no_guard stRunning "2" [] dZero rfl (by decide)

/-- C6 counterexample: requesting an assessment for the nonexistent résumé
"99" does fail with the resume-not-found error, but only after the run has
entered `Running`: the entry phase sets `isAnalyzing = true`, the interval has
already advanced progress (to 7 here), and progress is even set to 100 before
the failing lookup — refuting "fails before the run enters the Running
state". -/
theorem C6_counterexample :
    isNotFoundErr (analysisAttempt stIdle "99" [4] dZero) = true
    ∧ (runningTickState stIdle [4]).isAnalyzing = true
    ∧ (runningTickState stIdle [4]).analysisProgress = 7
    ∧ (preLookupState stIdle [4]).analysisProgress = 100 := by decide

/-- C6 (amended): for a resumeId that resolves to no record, the run fails
with the resume-not-found error, but only after entering `Running` (the
lookup happens after the simulated delay, with progress already simulated);
the error is swallowed internally, and no résumé or report state is written:
the résumé list, the stored reports and the selection are unchanged, and the
transient `isAnalyzing`/progress fields end reset. -/
theorem C6_not_found (st : PageState) (id : String) (td : List Nat) (d : Draws)
    (h : st.resumes.find? (fun r => r.id == id) = none) :
    isNotFoundErr (analysisAttempt st id td d) = true
    ∧ (runningTickState st td).isAnalyzing = true
    ∧ (handleStartAnalysis st id td d).resumes = st.resumes
    ∧ (handleStartAnalysis st id td d).analysisResults = st.analysisResults
    ∧ (handleStartAnalysis st id td d).selectedResume = st.selectedResume
    ∧ (handleStartAnalysis st id td d).isAnalyzing = false
    ∧ (handleStartAnalysis st id td d).analysisProgress = 0 := by
  have hpre : (preLookupState st td).resumes.find? (fun r => r.id == id) = none := h
  unfold handleStartAnalysis analysisAttempt
  rw [hpre]
  exact ⟨rfl, rfl, rfl, rfl, rfl, rfl, rfl⟩

/-- C6 witness: the amended statement at the concrete idle state and the
missing id "99". -/
theorem C6_not_found_witness :
    isNotFoundErr (analysisAttempt stIdle "99" [4] dZero) = true
    ∧ (handleStartAnalysis stIdle "99" [4] dZero).resumes = stIdle.resumes :=
  ⟨(C6_not_found stIdle "99" [4] dZero (by decide)).1,
   (C6_not_found stIdle "99" [4] dZero (by decide)).2.2.1⟩

/-- C7: within a run, the 400 ms interval can tick at most `maxTicks = 8`
times before the 3500 ms completion timeout clears it, so for tick-draw lists
of length at most 8 with draws bounded by 7 (steps of 3–10), the emitted
progress sequence starts at 0, is monotonically (strictly) increasing, every
emitted percent lies in [0, 100] (progress stays at most 80 before the final
emission), completion emits exactly 100, and the phase label is determined by
the percent bracket — parsing [0,20), ATS check [20,40), impact analysis
[40,60), keyword analysis [60,80), tip generation [80,100]. -/
theorem C7_progress (ds : List Nat) (hlen : ds.length ≤ maxTicks) (hd : ∀ d ∈ ds, d ≤ 7) :
    progressClaimOk ds
    ∧ (∀ p : Nat, p < 20 → phaseLabel p = "📄 이력서 파싱 중...")
    ∧ (∀ p : Nat, 20 ≤ p → p < 40 → phaseLabel p = "🔍 ATS 호환성 검사 중...")
    ∧ (∀ p : Nat, 40 ≤ p → p < 60 → phaseLabel p = "📊 임팩트 분석 중...")
    ∧ (∀ p : Nat, 60 ≤ p → p < 80 → phaseLabel p = "🔑 키워드 매칭 분석 중...")
    ∧ (∀ p : Nat, 80 ≤ p → phaseLabel p = "✨ 개선 제안 생성 중...") := by
  have hlen8 : ds.length ≤ 8 := hlen
  refine ⟨⟨rfl, ?_, ?_, ?_⟩, ?_, ?_, ?_, ?_, ?_⟩
  · exact tickValues_chain_concat ds 0 hd (by omega)
  · intro p hp
    simp only [progressSeq, List.mem_cons, List.mem_append] at hp
    rcases hp with rfl | hp | hp
    · omega
    · have := tickValues_add_le ds 0 hd p hp
      omega
    · simp at hp; omega
  · show (0 :: (tickValues 0 ds ++ [100])).getLast? = some 100
    rw [show (0 :: (tickValues 0 ds ++ [100])) = (0 :: tickValues 0 ds) ++ [100] from rfl]
    exact List.getLast?_concat _
  · intro p h; unfold phaseLabel; split_ifs <;> first | rfl | omega
  · intro p h1 h2; unfold phaseLabel; split_ifs <;> first | rfl | omega
  · intro p h1 h2; unfold phaseLabel; split_ifs <;> first | rfl | omega
  · intro p h1 h2; unfold phaseLabel; split_ifs <;> first | rfl | omega
  · intro p h; unfold phaseLabel; split_ifs <;> first | rfl | omega

/-- C7 witness: the progress contract for a run with a single maximal tick. -/
theorem C7_progress_witness : progressClaimOk [7] :=
  (C7_progress [7] (by decide) (by decide)).1

/-- C8 counterexample: in `stWith` résumé "1" has a stored report; after
`handleDeleteResume` removes it (confirmed), the résumé is gone from the list
but its stored analysis result is still present in `analysisResults` —
refuting "no stored analysis result for that résumé's id remains anywhere in
the system state". -/
theorem C8_counterexample :
    ((handleDeleteResume stWith "1" true).resumes.find? (fun r => r.id == "1") = none)
    ∧ ((handleDeleteResume stWith "1" true).analysisResults "1").isSome = true := by decide

/-- C8 (amended): a confirmed delete removes the résumé record from the list
(no résumé with that id remains), but does not remove the associated report:
whatever `analysisResults` stored for that id is still stored afterwards. -/
theorem C8_delete_keeps_report (st : PageState) (id : String) (res : AnalysisResult)
    (h : st.analysisResults id = some res) :
    ((handleDeleteResume st id true).resumes.find? (fun r => r.id == id) = none)
    ∧ (handleDeleteResume st id true).analysisResults id = some res := by
  constructor
  · show (st.resumes.filter (fun r => r.id != id)).find? (fun r => r.id == id) = none
    rw [List.find?_eq_none]
    intro x hx
    simp only [List.mem_filter, bne_iff_ne, ne_eq] at hx
    simp [hx.2]
  · exact h

/-- C8 witness: the amended statement at the concrete state `stWith`. -/
theorem C8_delete_keeps_report_witness :
    ((handleDeleteResume stWith "1" true).resumes.find? (fun r => r.id == "1") = none)
    ∧ (handleDeleteResume stWith "1" true).analysisResults "1" = some resC :=
  C8_delete_keeps_report stWith "1" resC (by rfl)
